import Mathlib

/-!
Verification model of the phase-plane analysis module of NumpyBrain
(file `brainpy/dynamics/phase_plane_analyzer.py`).

The module under study dispatches a `PhasePlaneAnalyzer` to a 1D or 2D
sub-analyzer, locates fixed points of the right-hand sides (symbolic
solving with a numeric fallback), classifies their stability, traces
nullclines, samples vector fields, and packages trajectories produced by
an external ODE runner.

Machine floats are modelled by exact rationals for finite values, with an
explicit four-way classification (`NpVal`) where the NaN/inf structure of
the code matters.  Python exceptions are modelled with `Except` over an
explicit error type.  Components of the repository that are imported by
the module but whose sources are not available (`base`, `solver`,
`utils`, `core`) are modelled from the specification; each such
definition carries a doc comment saying so.
-/

/-- Errors raised while using the module: `ModelUseError` is the
user-facing error class of the repository; `typeError` models a Python
`TypeError` escaping from a call. -/
inductive PyError where
  | modelUseError (msg : String)
  | typeError (msg : String)
  deriving DecidableEq, Repr

/-- The analyzer object installed by `PhasePlaneAnalyzer.__init__`. -/
inductive Analyzer where
  | oneD
  | twoD
  deriving DecidableEq, Repr

/-- Modelled from the spec: keyword parameter names accepted by the base
analyzer constructors (`base.Base1DNeuronAnalyzer` and
`base.Base2DNeuronAnalyzer`, whose source is not under `src/`), as
exercised by the working 1D call site at lines 142-146 of
`phase_plane_analyzer.py`. -/
def baseAnalyzerKeywords : List String :=
  ["model", "vars_dynamical", "vars_fixed", "pars_update", "options"]

/-- Keyword names written at the 1D call site (lines 142-146). -/
def kwargsAt1DCallSite : List String :=
  ["model", "vars_dynamical", "vars_fixed", "pars_update", "options"]

/-- Keyword names written at the 2D call site (lines 148-152).  Note the
second keyword: the source passes `targevars_dynamicalt_vars=target_vars`
there. -/
def kwargsAt2DCallSite : List String :=
  ["model", "targevars_dynamicalt_vars", "vars_fixed", "pars_update", "options"]

/-- Python keyword-call semantics: a keyword argument whose name is not
among the accepted parameter names raises `TypeError` before the callee
body runs; an accepted parameter that no keyword supplies raises
`TypeError` as well; otherwise the constructor body (`mk`) runs. -/
def callWithKeywords (accepted provided : List String) (mk : Unit → Analyzer) :
    Except PyError Analyzer :=
  match provided.find? (fun k => !(accepted.contains k)) with
  | some k => .error (.typeError ("got an unexpected keyword argument " ++ k))
  | none =>
    match accepted.find? (fun k => !(provided.contains k)) with
    | some k => .error (.typeError ("missing required argument " ++ k))
    | none => .ok (mk ())

/-- Arguments of `PhasePlaneAnalyzer.__init__` (lines 86-156), with the
dict-shape checks of the Python code abstracted to booleans and the dicts
to their key lists. -/
structure InitArgs where
  modelIsNeuType : Bool
  targetVarsIsDict : Bool
  fixedVarsIsDict : Bool
  parsUpdateIsDict : Bool
  targetVars : List String
  parsUpdate : List String
  modelParams : List String
  deriving DecidableEq, Repr

/-- `PhasePlaneAnalyzer.__init__` (lines 86-156): validation of the
arguments, then dispatch on the number of dynamical variables.  The 1D
branch calls the 1D constructor with the keyword names of lines 142-146;
the 2D branch calls the 2D constructor with the keyword names of lines
148-152; three or more variables raise `ModelUseError` directly.  The
constructors themselves are passed as `mk1`, `mk2` (their bodies build
grids and runner groups and are not reached unless called). -/
def phasePlaneAnalyzerInit (args : InitArgs) (mk1 mk2 : Unit → Analyzer) :
    Except PyError Analyzer :=
  if !args.modelIsNeuType then
    .error (.modelUseError "Phase plane analysis only support neuron type model.")
  else if !args.targetVarsIsDict then
    .error (.modelUseError "target_vars must a dict")
  else if !args.fixedVarsIsDict then
    .error (.modelUseError "fixed_vars must be a dict")
  else if !args.parsUpdateIsDict then
    .error (.modelUseError "pars_update must be a dict")
  else
    match args.parsUpdate.find? (fun k => !(args.modelParams.contains k)) with
    | some k => .error (.modelUseError (k ++ " is not a valid parameter in the model"))
    | none =>
      if args.targetVars.length == 1 then
        callWithKeywords baseAnalyzerKeywords kwargsAt1DCallSite mk1
      else if args.targetVars.length == 2 then
        callWithKeywords baseAnalyzerKeywords kwargsAt2DCallSite mk2
      else
        .error (.modelUseError "BrainPy only support 1D/2D phase plane analysis.")

/-- A numpy scalar, classified into the cases the NaN/inf handling of the
code distinguishes; finite values carry an exact rational. -/
inductive NpVal where
  | finite (q : ℚ)
  | posInf
  | negInf
  | nan
  deriving DecidableEq, Repr

/-- `np.isnan` on one entry. -/
def NpVal.isnan : NpVal → Bool
  | .nan => true
  | _ => false

/-- `np.isfinite` on one entry. -/
def NpVal.isfinite : NpVal → Bool
  | .finite _ => true
  | _ => false

/-- The branch condition of `PhasePlane2DAnalyzer.plot_vector_field`
(line 384): the line-width normalization (division of the local speed by
`speed.max()`) is applied iff `np.isnan(dx).any() or np.isnan(dy).any()`
is false. -/
def vectorFieldNormalizes (dx dy : List NpVal) : Bool :=
  !(dx.any NpVal.isnan || dy.any NpVal.isnan)

/-- The constant message of the `ModelUseError` raised when calling a
bound evaluator throws `TypeError` (lines 244-246, 372-381, and the
nullcline branches). -/
def missingVariableMessage : String :=
  "Missing variables. Please check and set missing variables to \"fixed_vars\"."

/-- Outcome of calling a bound right-hand-side evaluator produced by the
external equation front end: either the sampled values, or a `TypeError`
because a required variable named `varName` was neither dynamical nor
fixed. -/
inductive EvalOutcome where
  | ok (vals : List NpVal)
  | typeErrorMissing (varName : String)
  deriving DecidableEq, Repr

/-- The `try/except TypeError` wrapper the code puts around each
evaluator call: a `TypeError` is converted to `ModelUseError` with the
constant message `missingVariableMessage`. -/
def evalOrMissing : EvalOutcome → Except PyError (List NpVal)
  | .ok vs => .ok vs
  | .typeErrorMissing _ => .error (.modelUseError missingVariableMessage)

/-- `PhasePlane1DAnalyzer.plot_vector_field` (lines 240-259), reduced to
its evaluation step: sample dx over the grid, converting `TypeError` to
`ModelUseError`. -/
def plotVectorField1D (dxOutcome : EvalOutcome) : Except PyError (List NpVal) :=
  evalOrMissing dxOutcome

/-- `PhasePlane2DAnalyzer.plot_vector_field` (lines 352-397), reduced to
its evaluation steps: sample dx then dy over the mesh, converting each
`TypeError` to `ModelUseError`; the raw arrays are returned. -/
def plotVectorField2D (dxOutcome dyOutcome : EvalOutcome) :
    Except PyError (List NpVal × List NpVal) := do
  let dx ← evalOrMissing dxOutcome
  let dy ← evalOrMissing dyOutcome
  pure (dx, dy)

/-- `l1` is a prefix of `l2` (executable). -/
def isPrefixChars : List Char → List Char → Bool
  | [], _ => true
  | _ :: _, [] => false
  | a :: as, b :: bs => a == b && isPrefixChars as bs

/-- `needle` occurs contiguously inside `hay` (executable). -/
def hasSubChars (hay needle : List Char) : Bool :=
  isPrefixChars needle hay ||
    match hay with
    | [] => false
    | _ :: t => hasSubChars t needle

/-- The message `msg` mentions the name `name` (as a substring). -/
def mentionsName (msg name : String) : Bool :=
  hasSubChars msg.data name.data

/-- 1D stability classes.  Modelled from the spec
(`utils.stability_analysis` is not under `src/`): derivative below zero
is stable, above zero unstable, otherwise degenerate. -/
inductive Stability1D where
  | stable
  | unstable
  | degenerate
  deriving DecidableEq, Repr

/-- Modelled from the spec: the 1D stability classifier
(`utils.stability_analysis` on a scalar derivative). -/
def stability1D (dfdx : ℚ) : Stability1D :=
  if dfdx < 0 then .stable
  else if dfdx > 0 then .unstable
  else .degenerate

/-- Modelled from the spec: symmetric finite-difference derivative with
step `disturb`, as used by the bound `f_dfdx` of the base analyzer
(not under `src/`). -/
def finiteDiffD (f : ℚ → ℚ) (disturb x : ℚ) : ℚ :=
  (f (x + disturb) - f (x - disturb)) / (2 * disturb)

/-- Outcome of the symbolic solving step of
`PhasePlane1DAnalyzer.plot_fixed_point` (lines 272-293): success with a
closed-form root list, or one of the two exceptions the code catches
(`NotImplementedError` from sympy for unsupported forms,
`KeyboardInterrupt` from the timeout wrapper). -/
inductive SympyOutcome where
  | success (roots : List ℚ)
  | notImplementedError
  | timeoutInterrupt
  deriving DecidableEq, Repr

/-- Result of a 1D fixed-point query.  `rows` lists the items of the
returned `x_values` array exactly as the classification loop of lines
314-319 iterates them: on the symbolic-success path line 289 wraps the
whole solution tuple as `np.array([x_values])`, so the array has a
single item holding every root; on the numeric path line 303 builds a
flat array, one scalar item per root (a scalar item is modelled as a
one-element vector).  `classes` holds the class computed for each item —
one call of the classifier per loop iteration. -/
structure FixedPoint1DResult where
  rows : List (List ℚ)
  classes : List Stability1D
  deriving DecidableEq, Repr

/-- `PhasePlane1DAnalyzer.plot_fixed_point` (lines 261-332): unless
`escape_sympy_solver` is set, try the symbolic path; on either caught
exception fall back to the numeric root search over the resolution grid
(`solver.find_root_of_1d`, not under `src/`, supplied here as the list
`numericFallback` it returns).  The symbolic solution is wrapped as
`np.array([x_values])` (line 289), the numeric one as `np.array(x_values)`
(line 303).  The loop of lines 314-319 then calls the classifier once per
array item on the vector of estimated derivatives `dfdx` of that item;
`cls` is the classifier (`utils.stability_analysis`, not under `src/`) as
a function of the derivative vector it receives.  No failure of the
symbolic step escapes the method. -/
def plotFixedPoint1D (escape : Bool) (symbolic : SympyOutcome)
    (numericFallback : List ℚ) (dfdx : ℚ → ℚ)
    (cls : List ℚ → Stability1D) :
    Except PyError FixedPoint1DResult :=
  let symbolicRoots : Option (List ℚ) :=
    if escape then none
    else
      match symbolic with
      | .success rs => some rs
      | .notImplementedError => none
      | .timeoutInterrupt => none
  let rows : List (List ℚ) :=
    match symbolicRoots with
    | some rs => [rs]
    | none => numericFallback.map (fun x => [x])
  .ok { rows := rows,
        classes := rows.map (fun row => cls (row.map dfdx)) }

/-- Modelled from the spec: one concrete extension of the scalar
stability classifier to derivative vectors (the spec determines the
classifier only on a single scalar derivative); used to instantiate
theorems that hold for every extension. -/
def stabilityOnVec : List ℚ → Stability1D
  | [d] => stability1D d
  | _ => .degenerate

/-- The cubic right-hand side `f(x) = x*(x-1)*(x+1)` of the testable
property of the spec. -/
def fCubic (x : ℚ) : ℚ :=
  x * (x - 1) * (x + 1)

/-- Modelled from the spec: the closed-form root list the symbolic solver
(external `sympy.solve`) produces for `fCubic` over the reals.  The
theorem on this claim proves these are exactly the zeros of `fCubic`. -/
def sympyRootsCubic : List ℚ :=
  [-1, 0, 1]

/-- The full 1D fixed-point run on the cubic: symbolic path succeeds with
`sympyRootsCubic`, derivatives estimated by the symmetric finite
difference with step `disturb`, classified by `cls`. -/
def cubicFixedPointRun (cls : List ℚ → Stability1D) (disturb : ℚ) :
    Except PyError FixedPoint1DResult :=
  plotFixedPoint1D false (.success sympyRootsCubic) []
    (finiteDiffD fCubic disturb) cls

/-- The method by which one nullcline was obtained. -/
inductive SolveMethod where
  | symbolicYbyX
  | symbolicXbyY
  | numericSweep
  deriving DecidableEq, Repr

/-- Inputs deciding one equation branch of
`PhasePlane2DAnalyzer.plot_nullcline` (lines 480-512 for the y equation,
514-547 for the x equation): whether the symbolic inversion of y by x
succeeded and its sampled values over the x grid, likewise for x by y
over the y grid, and the coordinate pair the numeric optimizer returns
(`get_f_optimize_..._nullcline`, not under `src/`). -/
structure NullclineBranch where
  ybyxSuccess : Bool
  ybyxVals : List ℚ
  xbyySuccess : Bool
  xbyyVals : List ℚ
  optX : List ℚ
  optY : List ℚ
  deriving DecidableEq, Repr

/-- Coordinate pair selected by one equation branch of `plot_nullcline`:
`(xs, f(xs))` when y-by-x succeeds, `(g(ys), ys)` when x-by-y succeeds,
otherwise the optimizer output. -/
def nullclineCoords (xs ys : List ℚ) (b : NullclineBranch) : List ℚ × List ℚ :=
  if b.ybyxSuccess then (xs, b.ybyxVals)
  else if b.xbyySuccess then (b.xbyyVals, ys)
  else (b.optX, b.optY)

/-- The solving method the branch actually used. -/
def nullclineMethod (b : NullclineBranch) : SolveMethod :=
  if b.ybyxSuccess then .symbolicYbyX
  else if b.xbyySuccess then .symbolicXbyY
  else .numericSweep

/-- The value `plot_nullcline` returns (lines 558-559): a pair (one entry
per equation function name) of coordinate pairs, nothing else. -/
def plotNullclineResult (xs ys : List ℚ) (xEqBranch yEqBranch : NullclineBranch) :
    (List ℚ × List ℚ) × (List ℚ × List ℚ) :=
  (nullclineCoords xs ys xEqBranch, nullclineCoords xs ys yEqBranch)

/-- The `initials` argument of `get_trajectories`: either a flat sequence
whose first element is a scalar, or a batch of rows. -/
inductive Initials where
  | flat (vs : List ℚ)
  | batch (rows : List (List ℚ))
  deriving DecidableEq, Repr

/-- Lines 657-660: if the first element of `initials` is an `int` or
`float` the whole flat sequence becomes a single row. -/
def formatInitials : Initials → List (List ℚ)
  | .flat vs => [vs]
  | .batch rows => rows

/-- One trajectory bundle packaged by `get_trajectories`: a time axis and
one series per target variable. -/
structure Trajectory where
  ts : List ℚ
  series : List (String × List ℚ)
  deriving DecidableEq, Repr

/-- The constant message of the `ModelUseError` raised on a malformed
initial condition (lines 668-670). -/
def malformedInitialsMessage : String :=
  "\"initials\" be a tuple/list/array with the format of [[var1 initial, var2 initial]]."

/-- `get_trajectories` (lines 622-695): format `initials`, validate that
every row has exactly one entry per target variable (raising
`ModelUseError` otherwise), then build the neuron group, run it, and
package one trajectory per row.  The group construction and run
(`core.NeuGroup`, `core.TrajectoryRunner`, not under `src/`) are
modelled from the spec as the external runner: `monitor v i` is the
monitored series of variable `v` for row `i`, and `ts` the shared time
axis; validation happens before they are consulted. -/
def getTrajectoriesModel (targetVars : List String) (initials : Initials)
    (monitor : String → Nat → List ℚ) (ts : List ℚ) :
    Except PyError (List Trajectory) :=
  let rows := formatInitials initials
  if rows.any (fun r => r.length ≠ targetVars.length) then
    .error (.modelUseError malformedInitialsMessage)
  else
    .ok ((List.range rows.length).map (fun i =>
      { ts := ts, series := targetVars.map (fun v => (v, monitor v i)) }))

/-- Linear order used to sort root candidates `(coordinate, residual)`:
by coordinate, ties by residual. -/
def candLe (a b : ℚ × ℚ) : Prop :=
  a.1 < b.1 ∨ (a.1 = b.1 ∧ a.2 ≤ b.2)

instance : DecidableRel candLe := fun a b => by
  unfold candLe
  infer_instance

instance : IsTotal (ℚ × ℚ) candLe where
  total a b := by
    unfold candLe
    rcases lt_trichotomy a.1 b.1 with h | h | h
    · exact Or.inl (Or.inl h)
    · rcases le_total a.2 b.2 with h2 | h2
      · exact Or.inl (Or.inr ⟨h, h2⟩)
      · exact Or.inr (Or.inr ⟨h.symm, h2⟩)
    · exact Or.inr (Or.inl h)

instance : IsTrans (ℚ × ℚ) candLe where
  trans a b c hab hbc := by
    unfold candLe at *
    rcases hab with h1 | ⟨h1, h1r⟩
    · rcases hbc with h2 | ⟨h2, _⟩
      · exact Or.inl (h1.trans h2)
      · exact Or.inl (h2 ▸ h1)
    · rcases hbc with h2 | ⟨h2, h2r⟩
      · exact Or.inl (h1 ▸ h2)
      · exact Or.inr ⟨h1.trans h2, h1r.trans h2r⟩

instance : IsAntisymm (ℚ × ℚ) candLe where
  antisymm a b hab hba := by
    unfold candLe at *
    rcases hab with h1 | ⟨h1, h1r⟩
    · rcases hba with h2 | ⟨h2, _⟩
      · exact absurd (h1.trans h2) (lt_irrefl _)
      · exact absurd h1 (h2 ▸ lt_irrefl _)
    · rcases hba with h2 | ⟨h2, h2r⟩
      · exact absurd h2 (h1 ▸ lt_irrefl _)
      · exact Prod.ext h1 (le_antisymm h1r h2r)

/-- Modelled from the spec: the deduplication merge of the Root Finder
(`solver.find_root_of_1d`, not under `src/`).  On a coordinate-sorted
candidate list, two neighbours closer than `xl_tol` are merged, keeping
the lower-residual representative. -/
def mergeClose (tol : ℚ) : List (ℚ × ℚ) → List (ℚ × ℚ)
  | [] => []
  | [c] => [c]
  | c :: d :: rest =>
    if |d.1 - c.1| < tol then
      mergeClose tol ((if d.2 < c.2 then d else c) :: rest)
    else
      c :: mergeClose tol (d :: rest)
  termination_by l => l.length

/-- Modelled from the spec: deduplication of root candidates — sort by
coordinate (ties by residual), then merge candidates closer than
`xl_tol`. -/
def dedupRoots (tol : ℚ) (cands : List (ℚ × ℚ)) : List (ℚ × ℚ) :=
  mergeClose tol (List.insertionSort candLe cands)

/-- Modelled from the spec: the numeric root search returns the
deduplicated root coordinates found from the candidate list produced by
the global optimizer (whose discovery order is nondeterministic). -/
def numericRootSearch (tol : ℚ) (cands : List (ℚ × ℚ)) : List ℚ :=
  (dedupRoots tol cands).map Prod.fst

/-! ## Theorems -/

/-- Helper: the symmetric finite-difference estimate of the derivative of
the cubic equals the true derivative `3*x^2 - 1` shifted by `d^2`. -/
theorem finiteDiffD_fCubic (d x : ℚ) (hd : d ≠ 0) :
    finiteDiffD fCubic d x = 3 * x ^ 2 - 1 + d ^ 2 := by
  unfold finiteDiffD fCubic
  field_simp
  ring

/-- Helper: sorting by `candLe` is invariant under permutation of the
input candidate list. -/
theorem insertionSortCand_eq_of_perm {l1 l2 : List (ℚ × ℚ)} (h : l1.Perm l2) :
    List.insertionSort candLe l1 = List.insertionSort candLe l2 :=
  List.eq_of_perm_of_sorted
    (((List.perm_insertionSort candLe l1).trans h).trans
      (List.perm_insertionSort candLe l2).symm)
    (List.sorted_insertionSort candLe l1)
    (List.sorted_insertionSort candLe l2)

/-- C1: constructing `PhasePlaneAnalyzer` with exactly two dynamical
variables does not succeed: the 2D branch of `__init__` (lines 148-152)
passes the keyword `targevars_dynamicalt_vars` (the 1D branch passes
`vars_dynamical`), so the call raises a Python `TypeError` and no 2D
analyzer is installed.  Quantifying over the constructors shows neither
is ever invoked. -/
theorem c1_two_target_vars_construction_fails :
    ∀ mk1 mk2 : Unit → Analyzer,
      phasePlaneAnalyzerInit
        { modelIsNeuType := true, targetVarsIsDict := true,
          fixedVarsIsDict := true, parsUpdateIsDict := true,
          targetVars := ["V", "w"], parsUpdate := [], modelParams := [] }
        mk1 mk2 =
      .error (.typeError
        "got an unexpected keyword argument targevars_dynamicalt_vars") := by
  intro mk1 mk2
  rfl

/-- Closed instance of `c1_two_target_vars_construction_fails` at
concrete constructors. -/
theorem c1_two_target_vars_construction_fails_witness :
    phasePlaneAnalyzerInit
      { modelIsNeuType := true, targetVarsIsDict := true,
        fixedVarsIsDict := true, parsUpdateIsDict := true,
        targetVars := ["V", "w"], parsUpdate := [], modelParams := [] }
      (fun _ => .oneD) (fun _ => .twoD) =
    .error (.typeError
      "got an unexpected keyword argument targevars_dynamicalt_vars") :=
  c1_two_target_vars_construction_fails (fun _ => .oneD) (fun _ => .twoD)

/-- C3 counterexample: with `dx = [+inf]` and `dy = [0]` every isnan test
is false, so the code applies the line-width normalization although an
entry of `dx` is not finite — refuting the claim that normalization is
applied only when every entry is finite. -/
theorem c3_normalization_not_skipped_on_inf :
    vectorFieldNormalizes [NpVal.posInf] [NpVal.finite 0] = true ∧
    NpVal.isfinite NpVal.posInf = false :=
  ⟨rfl, rfl⟩

/-- C3 (amended): `plot_vector_field` skips the line-width normalization
iff some entry of the sampled `dx` or `dy` is NaN; infinities do not
trigger the skip. -/
theorem c3_normalization_skipped_iff_nan :
    ∀ dx dy : List NpVal,
      vectorFieldNormalizes dx dy = false ↔
        (∃ v ∈ dx, v.isnan = true) ∨ (∃ v ∈ dy, v.isnan = true) := by
  intro dx dy
  unfold vectorFieldNormalizes
  rw [Bool.not_eq_false', Bool.or_eq_true, List.any_eq_true, List.any_eq_true]

/-- Closed instance of `c3_normalization_skipped_iff_nan`: a NaN entry in
`dx` makes the code skip the normalization. -/
theorem c3_normalization_skipped_iff_nan_witness :
    vectorFieldNormalizes [NpVal.nan] [NpVal.finite 0] = false :=
  (c3_normalization_skipped_iff_nan [NpVal.nan] [NpVal.finite 0]).mpr
    (Or.inl ⟨NpVal.nan, List.mem_singleton.mpr rfl, rfl⟩)

/-- C4: when the symbolic solving step of the 1D fixed-point query fails
with either caught exception (unsupported form, or timeout), the method
returns normally with the numeric fallback roots, one scalar array item
per root, each classified by the sign of its estimated derivative; for
an empty fallback the result is the empty root set, not an exception.
Holds for every classifier that agrees with the spec scalar classifier
on single derivatives. -/
theorem c4_symbolic_failure_recovered :
    ∀ (escape : Bool) (sym : SympyOutcome) (fallback : List ℚ)
      (dfdx : ℚ → ℚ) (cls : List ℚ → Stability1D),
      (∀ d, cls [d] = stability1D d) →
      (sym = .notImplementedError ∨ sym = .timeoutInterrupt) →
        plotFixedPoint1D escape sym fallback dfdx cls =
          .ok { rows := fallback.map (fun x => [x]),
                classes := fallback.map (fun x => stability1D (dfdx x)) } := by
  rintro escape sym fallback dfdx cls hcls (rfl | rfl) <;> cases escape <;>
    simp [plotFixedPoint1D, List.map_map, Function.comp, hcls]

/-- Closed instance of `c4_symbolic_failure_recovered`: a timeout with an
empty numeric fallback yields the empty root set. -/
theorem c4_symbolic_failure_recovered_witness :
    plotFixedPoint1D false .timeoutInterrupt [] (fun _ => 0) stabilityOnVec =
      .ok { rows := [], classes := [] } :=
  c4_symbolic_failure_recovered false .timeoutInterrupt [] (fun _ => 0)
    stabilityOnVec (fun _ => rfl) (Or.inr rfl)

/-- C6 counterexample: a missing variable named `w` makes
`plot_vector_field` raise `ModelUseError`, but the message is a constant
that does not mention the name `w` — refuting the part of the claim that
the error names the missing variable. -/
theorem c6_error_does_not_name_variable :
    plotVectorField1D (.typeErrorMissing "w") =
      .error (.modelUseError missingVariableMessage) ∧
    mentionsName missingVariableMessage "w" = false :=
  ⟨rfl, by decide⟩

/-- C6 (amended): whenever an evaluator cannot be called because a
required variable is missing, `plot_vector_field` (1D, or 2D on either
equation) fails with the user-facing `ModelUseError` carrying the
constant missing-variables message, rather than returning a numeric
result; the message does not name the specific variable. -/
theorem c6_missing_variable_raises :
    ∀ (name : String) (vals : List NpVal) (dyOut : EvalOutcome),
      plotVectorField1D (.typeErrorMissing name) =
        .error (.modelUseError missingVariableMessage) ∧
      plotVectorField2D (.typeErrorMissing name) dyOut =
        .error (.modelUseError missingVariableMessage) ∧
      plotVectorField2D (.ok vals) (.typeErrorMissing name) =
        .error (.modelUseError missingVariableMessage) := by
  intro name vals dyOut
  exact ⟨rfl, rfl, rfl⟩

/-- Closed instance of `c6_missing_variable_raises`. -/
theorem c6_missing_variable_raises_witness :
    plotVectorField1D (.typeErrorMissing "w") =
      .error (.modelUseError missingVariableMessage) ∧
    plotVectorField2D (.typeErrorMissing "w") (.ok []) =
      .error (.modelUseError missingVariableMessage) ∧
    plotVectorField2D (.ok []) (.typeErrorMissing "w") =
      .error (.modelUseError missingVariableMessage) :=
  c6_missing_variable_raises "w" [] (.ok [])

/-- C5 counterexample: two nullcline computations that use different
solving methods (symbolic inverse of y by x, versus numeric sweep)
produce identical return values, so the value returned by
`plot_nullcline` cannot report the solving method: it carries only the
coordinate sequences. -/
theorem c5_return_value_lacks_method :
    plotNullclineResult [0] []
        { ybyxSuccess := false, ybyxVals := [], xbyySuccess := false,
          xbyyVals := [], optX := [0], optY := [1] }
        { ybyxSuccess := true, ybyxVals := [], xbyySuccess := false,
          xbyyVals := [], optX := [], optY := [] } =
      plotNullclineResult [0] []
        { ybyxSuccess := true, ybyxVals := [1], xbyySuccess := false,
          xbyyVals := [], optX := [], optY := [] }
        { ybyxSuccess := true, ybyxVals := [], xbyySuccess := false,
          xbyyVals := [], optX := [], optY := [] } ∧
    nullclineMethod
        { ybyxSuccess := false, ybyxVals := [], xbyySuccess := false,
          xbyyVals := [], optX := [0], optY := [1] } ≠
      nullclineMethod
        { ybyxSuccess := true, ybyxVals := [1], xbyySuccess := false,
          xbyyVals := [], optX := [], optY := [] } :=
  ⟨rfl, by decide⟩

/-- C5 (amended): the value returned by `plot_nullcline` maps each of the
two equations to its pair of parallel coordinate sequences, the pair
being the one produced by the branch actually used (symbolic inverse of
y by x sampled over the x grid, symbolic inverse of x by y sampled over
the y grid, or the numeric sweep output); the solving method itself is
not part of the returned value. -/
theorem c5_coords_follow_method :
    ∀ (xs ys : List ℚ) (bx bY : NullclineBranch),
      plotNullclineResult xs ys bx bY =
        (nullclineCoords xs ys bx, nullclineCoords xs ys bY) ∧
      (nullclineMethod bx = .symbolicYbyX →
        nullclineCoords xs ys bx = (xs, bx.ybyxVals)) ∧
      (nullclineMethod bx = .symbolicXbyY →
        nullclineCoords xs ys bx = (bx.xbyyVals, ys)) ∧
      (nullclineMethod bx = .numericSweep →
        nullclineCoords xs ys bx = (bx.optX, bx.optY)) := by
  intro xs ys bx bY
  refine ⟨rfl, ?_, ?_, ?_⟩ <;>
    cases h1 : bx.ybyxSuccess <;>
      cases h2 : bx.xbyySuccess <;>
        simp [nullclineMethod, nullclineCoords, h1, h2]

/-- Closed instance of `c5_coords_follow_method`. -/
theorem c5_coords_follow_method_witness :
    plotNullclineResult [0] [1]
        { ybyxSuccess := true, ybyxVals := [2], xbyySuccess := false,
          xbyyVals := [], optX := [], optY := [] }
        { ybyxSuccess := false, ybyxVals := [], xbyySuccess := false,
          xbyyVals := [], optX := [3], optY := [4] } =
      (([0], [2]), ([3], [4])) :=
  (c5_coords_follow_method [0] [1]
      { ybyxSuccess := true, ybyxVals := [2], xbyySuccess := false,
        xbyyVals := [], optX := [], optY := [] }
      { ybyxSuccess := false, ybyxVals := [], xbyySuccess := false,
        xbyyVals := [], optX := [3], optY := [4] }).1.trans rfl

/-- C7: for any well-formed arguments whose `target_vars` has three or
more dynamical variables, `PhasePlaneAnalyzer.__init__` fails with the
user-facing dimensionality `ModelUseError`, and the result does not
depend on the analyzer constructors — neither constructor (and hence no
grid-building body) is ever invoked. -/
theorem c7_three_vars_rejected_at_construction :
    ∀ (args : InitArgs) (mk1 mk2 : Unit → Analyzer),
      args.modelIsNeuType = true →
      args.targetVarsIsDict = true →
      args.fixedVarsIsDict = true →
      args.parsUpdateIsDict = true →
      (∀ k ∈ args.parsUpdate, k ∈ args.modelParams) →
      3 ≤ args.targetVars.length →
      phasePlaneAnalyzerInit args mk1 mk2 =
        .error (.modelUseError
          "BrainPy only support 1D/2D phase plane analysis.") := by
  intro args mk1 mk2 h1 h2 h3 h4 hpars hlen
  have hfind :
      args.parsUpdate.find? (fun k => !(args.modelParams.contains k)) = none := by
    rw [List.find?_eq_none]
    intro k hk
    simp [hpars k hk]
  have e1 : (args.targetVars.length == 1) = false := by
    rw [beq_eq_false_iff_ne]
    omega
  have e2 : (args.targetVars.length == 2) = false := by
    rw [beq_eq_false_iff_ne]
    omega
  unfold phasePlaneAnalyzerInit
  rw [h1, h2, h3, h4, hfind]
  simp [e1, e2]

/-- Closed instance of `c7_three_vars_rejected_at_construction` at three
dynamical variables. -/
theorem c7_three_vars_rejected_at_construction_witness :
    phasePlaneAnalyzerInit
      { modelIsNeuType := true, targetVarsIsDict := true,
        fixedVarsIsDict := true, parsUpdateIsDict := true,
        targetVars := ["V", "w", "h"], parsUpdate := [], modelParams := [] }
      (fun _ => .oneD) (fun _ => .twoD) =
    .error (.modelUseError
      "BrainPy only support 1D/2D phase plane analysis.") :=
  c7_three_vars_rejected_at_construction _ _ _ rfl rfl rfl rfl
    (by simp) (by decide)

/-- C8: if any formatted initial-condition row does not have exactly one
entry per dynamical variable, `get_trajectories` fails with the
user-facing malformed-initials `ModelUseError`; the result does not
depend on the monitored series or the time axis of the runner, which
shows the failure occurs before the neuron group is built or run. -/
theorem c8_malformed_initials_rejected :
    ∀ (targetVars : List String) (initials : Initials)
      (monitor : String → Nat → List ℚ) (ts : List ℚ),
      (∃ r ∈ formatInitials initials, r.length ≠ targetVars.length) →
      getTrajectoriesModel targetVars initials monitor ts =
        .error (.modelUseError malformedInitialsMessage) := by
  rintro tv ini mon ts ⟨r, hr, hne⟩
  simp only [getTrajectoriesModel]
  rw [if_pos]
  rw [List.any_eq_true]
  exact ⟨r, hr, by simpa using hne⟩

/-- Closed instance of `c8_malformed_initials_rejected`: a single row
with one entry for a two-variable system is rejected. -/
theorem c8_malformed_initials_rejected_witness :
    getTrajectoriesModel ["m", "n"] (.batch [[0]]) (fun _ _ => []) [] =
      .error (.modelUseError malformedInitialsMessage) :=
  c8_malformed_initials_rejected ["m", "n"] (.batch [[0]]) (fun _ _ => []) []
    ⟨[0], List.mem_singleton.mpr rfl, by decide⟩

/-- C10: a flat `initials` sequence (first element a scalar) with one
entry per dynamical variable is interpreted as a single
initial-condition row, so exactly one trajectory is returned. -/
theorem c10_flat_initials_single_trajectory :
    ∀ (targetVars : List String) (vs : List ℚ)
      (monitor : String → Nat → List ℚ) (ts : List ℚ),
      vs.length = targetVars.length →
      getTrajectoriesModel targetVars (.flat vs) monitor ts =
        .ok [{ ts := ts,
               series := targetVars.map (fun v => (v, monitor v 0)) }] := by
  intro tv vs mon ts hlen
  unfold getTrajectoriesModel formatInitials
  simp [hlen, List.range_succ]

/-- Closed instance of `c10_flat_initials_single_trajectory`: the pair
`(0, 1)` for the two-variable system gives one trajectory, not two. -/
theorem c10_flat_initials_single_trajectory_witness :
    getTrajectoriesModel ["m", "n"] (.flat [0, 1]) (fun _ _ => []) [] =
      .ok [{ ts := [],
             series := [("m", []), ("n", [])] }] :=
  c10_flat_initials_single_trajectory ["m", "n"] [0, 1] (fun _ _ => []) [] rfl

/-- C9: the set of roots produced by the numeric root search is
independent of the discovery order of the candidates: candidate lists
that are permutations of one another yield identical deduplicated root
lists, hence two runs of the fixed-point search on identical inputs
yield the same root set. -/
theorem c9_root_set_order_independent :
    ∀ (tol : ℚ) (c1 c2 : List (ℚ × ℚ)), c1.Perm c2 →
      numericRootSearch tol c1 = numericRootSearch tol c2 := by
  intro tol c1 c2 h
  unfold numericRootSearch dedupRoots
  rw [insertionSortCand_eq_of_perm h]

/-- Closed instance of `c9_root_set_order_independent` on a two-element
candidate list discovered in either order. -/
theorem c9_root_set_order_independent_witness :
    ([((0 : ℚ), (1 : ℚ)), (2, 0)] : List (ℚ × ℚ)).Perm [(2, 0), (0, 1)] ∧
    numericRootSearch (1 / 1000) [((0 : ℚ), (1 : ℚ)), (2, 0)] =
      numericRootSearch (1 / 1000) [(2, 0), (0, 1)] :=
  ⟨by decide,
   c9_root_set_order_independent (1 / 1000) _ _ (by decide)⟩

/-- C2: on the 1D system `f(x) = x*(x-1)*(x+1)` the symbolic path of the
fixed-point query wraps the three-root solution as `np.array([x_values])`
(line 289), so for every classifier behaviour `cls` the run returns a
single array item holding all of `{-1, 0, 1}` together with a single
class obtained from one classifier call on the whole derivative vector —
not one class per root.  The remaining conjuncts show the claim is right
about the intent: the wrapped values are exactly the zero set of the
cubic, and the estimated derivatives at `-1` and `0` have opposite
signs, so no single class is the correct sign class for every root. -/
theorem c2_symbolic_path_classifies_once :
    ∀ cls : List ℚ → Stability1D,
      cubicFixedPointRun cls (1 / 10000) =
        .ok { rows := [[-1, 0, 1]],
              classes := [cls [finiteDiffD fCubic (1 / 10000) (-1),
                               finiteDiffD fCubic (1 / 10000) 0,
                               finiteDiffD fCubic (1 / 10000) 1]] } ∧
      (∀ x : ℚ, fCubic x = 0 ↔ x = -1 ∨ x = 0 ∨ x = 1) ∧
      0 < finiteDiffD fCubic (1 / 10000) (-1) ∧
      finiteDiffD fCubic (1 / 10000) 0 < 0 := by
  intro cls
  have hd : (1 : ℚ) / 10000 ≠ 0 := by norm_num
  refine ⟨rfl, ?_, ?_, ?_⟩
  · intro x
    unfold fCubic
    rw [mul_eq_zero, mul_eq_zero, sub_eq_zero, add_eq_zero_iff_eq_neg]
    tauto
  · rw [finiteDiffD_fCubic _ _ hd]
    norm_num
  · rw [finiteDiffD_fCubic _ _ hd]
    norm_num

/-- Closed instance of `c2_symbolic_path_classifies_once` at the concrete
classifier extension `stabilityOnVec`: the run returns one nested row
with all three roots and exactly one class, and `-1` is a root of the
cubic. -/
theorem c2_symbolic_path_classifies_once_witness :
    cubicFixedPointRun stabilityOnVec (1 / 10000) =
      .ok { rows := [[-1, 0, 1]],
            classes := [Stability1D.degenerate] } ∧
    fCubic (-1) = 0 :=
  ⟨(c2_symbolic_path_classifies_once stabilityOnVec).1.trans rfl,
   ((c2_symbolic_path_classifies_once stabilityOnVec).2.1 (-1)).mpr
     (Or.inl rfl)⟩
